import Mathlib

/-!
Verification development for the MCP tool-registry server
(`src/core` service/repository layers, `src/mcp_server/tools.py` stub,
`src/core/services/tool_handlers.py` built-in handlers).

Shallow embedding conventions:
* Python dict-of-JSON values are modelled by `JVal`; parameter and result
  mappings (`dict[str, Any]`) by association lists `PDict` preserving
  insertion order, which Python dicts also guarantee.
* Python numbers are modelled exactly: `int` by `JVal.int`, `float` by
  `JVal.rat` over `Rat` (binary rounding and the special literals
  inf/nan are outside the model).
* The relational store is a `Store`: a list of `Tool` rows (insertion
  order = primary-key order) plus the autoincrement counter; the clock is
  threaded as a `now : Nat` argument wherever SQLAlchemy's
  `server_default=func.now()` / `onupdate=func.now()` would fire.
* Exceptions become an `AppError` sum mirroring `src/core/exceptions.py`;
  service operations return `Except AppError α` (mutators also return the
  resulting store, unchanged on the error paths, matching a raised
  Python exception leaving the session untouched).
-/

/-- A Python/JSON value as stored in parameter and result mappings. -/
inductive JVal where
  | null
  | bool (b : Bool)
  | int (n : Int)
  | rat (q : Rat)
  | str (s : String)
  | arr (xs : List JVal)
  | obj (kvs : List (String × JVal))
  deriving Repr

/-- Parameter / result mapping: an insertion-ordered `dict[str, Any]`. -/
abbrev PDict := List (String × JVal)

/-- `d.get(k)`: first binding of `k`, if any. -/
def PDict.get? (p : PDict) (k : String) : Option JVal :=
  (p.find? (fun kv => kv.1 == k)).map (fun kv => kv.2)

/-- `d.get(k, default)`. -/
def PDict.getD (p : PDict) (k : String) (d : JVal) : JVal :=
  (PDict.get? p k).getD d

/-- Decimal rendering of a rational, used to model Python `str(float)`
on the terminating decimals the seeded tools produce. -/
def ratStr (q : Rat) : String :=
  if q.den = 1 then toString q.num ++ ".0" else toString q.num ++ "/" ++ toString q.den

mutual
/-- Python `str(value)` as used by the f-string in `echo_handler`.
Faithful on the scalar forms; containers follow Python's repr shape. -/
def pyStr : JVal → String
  | .null => "None"
  | .bool b => if b then "True" else "False"
  | .int n => toString n
  | .rat q => ratStr q
  | .str s => s
  | .arr xs => "[" ++ pyStrList xs ++ "]"
  | .obj kvs => "\x7b" ++ pyStrObj kvs ++ "\x7d"

def pyStrList : List JVal → String
  | [] => ""
  | [x] => pyStr x
  | x :: xs => pyStr x ++ ", " ++ pyStrList xs

def pyStrObj : List (String × JVal) → String
  | [] => ""
  | [kv] => kv.1 ++ ": " ++ pyStr kv.2
  | kv :: kvs => kv.1 ++ ": " ++ pyStr kv.2 ++ ", " ++ pyStrObj kvs
end

/-- Digits-only check for a (possibly empty) character list. -/
def allDigits (cs : List Char) : Bool :=
  cs.all Char.isDigit

/-- Value of a digit list read in base 10. -/
def digitsToNat (cs : List Char) : Nat :=
  cs.foldl (fun acc c => acc * 10 + (c.toNat - ('0').toNat)) 0

/-- Parse the mantissa `digits`, `digits.digits`, `.digits` or `digits.`
of a Python float literal, returning the value as a rational. -/
def parseMantissa (cs : List Char) : Option Rat :=
  match cs.splitOn '.' with
  | [intPart] =>
      if intPart ≠ [] ∧ allDigits intPart then some (digitsToNat intPart : Rat)
      else none
  | [intPart, fracPart] =>
      if (intPart ≠ [] ∨ fracPart ≠ []) ∧ allDigits intPart ∧ allDigits fracPart then
        some ((digitsToNat (intPart ++ fracPart) : Rat) / ((10 : Rat) ^ fracPart.length))
      else none
  | _ => none

/-- Parse an optional sign followed by a mantissa and optional decimal
exponent, the fragment of Python `float(str)` the model covers. -/
def parseFloatLit (cs : List Char) : Option Rat :=
  let (sign, rest) :=
    match cs with
    | '-' :: tl => ((-1 : Rat), tl)
    | '+' :: tl => ((1 : Rat), tl)
    | _ => ((1 : Rat), cs)
  let withExp : Option Rat :=
    match rest.splitOn 'e' with
    | [mant, ex] =>
        match parseMantissa mant, ex with
        | some m, '-' :: ds =>
            if ds ≠ [] ∧ allDigits ds then some (m / (10 : Rat) ^ digitsToNat ds) else none
        | some m, '+' :: ds =>
            if ds ≠ [] ∧ allDigits ds then some (m * (10 : Rat) ^ digitsToNat ds) else none
        | some m, ds =>
            if ds ≠ [] ∧ allDigits ds then some (m * (10 : Rat) ^ digitsToNat ds) else none
        | none, _ => none
    | [mant] => parseMantissa mant
    | _ => none
  withExp.map (fun v => sign * v)

/-- The whitespace `float(str)` strips from both ends. -/
def pySpace (c : Char) : Bool :=
  c == ' ' || c == '\t' || c == '\n' || c == '\r' || c == '\x0b' || c == '\x0c'

/-- Strip leading and trailing whitespace from a character list. -/
def stripChars (cs : List Char) : List Char :=
  ((cs.dropWhile pySpace).reverse.dropWhile pySpace).reverse

/-- Python `float(value)`: numbers and bools coerce, numeric strings
parse (`ValueError` otherwise), and non-real types raise `TypeError`.
The error string is the exception's message. (The literals inf/nan and
digit underscores, which CPython also accepts, are outside the model.) -/
def pyFloat : JVal → Except String Rat
  | .int n => .ok (n : Rat)
  | .rat q => .ok q
  | .bool b => .ok (if b then 1 else 0)
  | .str s =>
      match parseFloatLit
          ((stripChars s.toList).map (fun c => if c == 'E' then 'e' else c)) with
      | some q => .ok q
      | none => .error ("could not convert string to float: '" ++ s ++ "'")
  | .null => .error "float() argument must be a string or a real number, not 'NoneType'"
  | .arr _ => .error "float() argument must be a string or a real number, not 'list'"
  | .obj _ => .error "float() argument must be a string or a real number, not 'dict'"

/-- `echo_handler` from `src/core/services/tool_handlers.py`: echoes
`parameters.get("text", "")`. -/
def echo_handler (parameters : PDict) : PDict :=
  let text := PDict.getD parameters "text" (.str "")
  [ ("success", .bool true),
    ("message", .str ("Echo: " ++ pyStr text)),
    ("original_text", text) ]

/-- `calculator_add_handler`: adds `float(a) + float(b)` with `a`, `b`
defaulting to `0`; conversion failure yields a `success: false` mapping
carrying the exception message. -/
def calculator_add_handler (parameters : PDict) : PDict :=
  let a := PDict.getD parameters "a" (.int 0)
  let b := PDict.getD parameters "b" (.int 0)
  match pyFloat a with
  | .error e => [("success", .bool false), ("error", .str ("Invalid numbers provided: " ++ e))]
  | .ok fa =>
      match pyFloat b with
      | .error e => [("success", .bool false), ("error", .str ("Invalid numbers provided: " ++ e))]
      | .ok fb =>
          [ ("success", .bool true),
            ("operation", .str "addition"),
            ("a", a),
            ("b", b),
            ("result", .rat (fa + fb)) ]

/-- `TOOL_HANDLERS`: the process-wide registry of the two built-in
handlers. -/
def TOOL_HANDLERS : List (String × (PDict → PDict)) :=
  [ ("echo_handler", echo_handler),
    ("calculator_add_handler", calculator_add_handler) ]

/-- `get_handler(name)`: registry lookup, `None` when absent. -/
def get_handler (handler_name : String) : Option (PDict → PDict) :=
  (TOOL_HANDLERS.find? (fun kv => kv.1 == handler_name)).map (fun kv => kv.2)

/-- `list_handlers()`. -/
def list_handlers : List String :=
  TOOL_HANDLERS.map (fun kv => kv.1)

/-- One row of the `tools` table (`src/core/models/tool.py`). -/
structure Tool where
  id : Nat
  name : String
  description : String
  handler_name : String
  parameters_schema : JVal
  is_active : Bool
  created_at : Nat
  updated_at : Nat
  deriving Repr

/-- `ToolCreate` (`src/core/schemas/tool.py`): the validated creation
payload. The pydantic length bounds live at the API boundary and are not
re-stated here. -/
structure ToolCreate where
  name : String
  description : String
  handler_name : String
  parameters_schema : JVal
  is_active : Bool
  deriving Repr

/-- State of one optional field of a `ToolUpdate`: never set, explicitly
set to `None`, or set to a value — the distinction
`model_dump(exclude_unset=True)` exposes. -/
inductive UVal (A : Type) where
  | unset
  | null
  | val (a : A)
  deriving Repr

/-- Attribute access on the pydantic model: both `unset` and `null` read
back as Python `None`. -/
def UVal.toAttr {A : Type} : UVal A → Option A
  | .unset => none
  | .null => none
  | .val a => some a

/-- The value `BaseRepository.update` leaves in a column: only a set,
non-`None` entry of the dump overwrites the old value. -/
def UVal.apply {A : Type} (u : UVal A) (old : A) : A :=
  match u with
  | .val a => a
  | _ => old

/-- Whether applying `u` changes the stored value (drives whether the
flush emits an UPDATE and hence refreshes `updated_at`). -/
def UVal.changes {A : Type} [BEq A] (u : UVal A) (old : A) : Bool :=
  match u with
  | .val a => a != old
  | _ => false

/-- `ToolUpdate` (`src/core/schemas/tool.py`): a partial update payload. -/
structure ToolUpdate where
  name : UVal String
  description : UVal String
  handler_name : UVal String
  parameters_schema : UVal JVal
  is_active : UVal Bool

/-- The `tools` table plus its autoincrement counter; rows are kept in
insertion (primary-key) order. -/
structure Store where
  rows : List Tool
  nextId : Nat

namespace Store

/-- `BaseRepository.get_by_id`: the row whose primary key matches. -/
def get_by_id (s : Store) (id_ : Nat) : Option Tool :=
  s.rows.find? (fun t => t.id == id_)

/-- `ToolRepository.get_by_name`. -/
def get_by_name (s : Store) (name : String) : Option Tool :=
  s.rows.find? (fun t => t.name == name)

/-- `BaseRepository.list_all`. -/
def list_all (s : Store) : List Tool :=
  s.rows

/-- `ToolRepository.list_active`: rows with `is_active = true`. -/
def list_active (s : Store) : List Tool :=
  s.rows.filter (fun t => t.is_active)

/-- `BaseRepository.create`: insert with fresh id, both timestamps set by
the server clock, and commit. -/
def create (s : Store) (d : ToolCreate) (now : Nat) : Tool × Store :=
  let t : Tool :=
    { id := s.nextId, name := d.name, description := d.description,
      handler_name := d.handler_name, parameters_schema := d.parameters_schema,
      is_active := d.is_active, created_at := now, updated_at := now }
  (t, { rows := s.rows ++ [t], nextId := s.nextId + 1 })

/-- Replace the first row satisfying `p` by `t'` (in-place mutation of
the fetched ORM instance). -/
def replaceFirst (p : Tool → Bool) (t' : Tool) : List Tool → List Tool
  | [] => []
  | r :: rs => if p r then t' :: rs else r :: replaceFirst p t' rs

/-- Whether a `ToolUpdate` changes any column of `t`. -/
def updChanges (d : ToolUpdate) (t : Tool) : Bool :=
  d.name.changes t.name || d.description.changes t.description ||
  d.handler_name.changes t.handler_name || d.is_active.changes t.is_active ||
  (match d.parameters_schema with | .val _ => true | _ => false)

/-- The row produced by assigning every set non-`None` field of the dump
onto `t`; `updated_at` is refreshed by `onupdate=func.now()` exactly when
the flush writes the row. -/
def applyUpd (d : ToolUpdate) (t : Tool) (now : Nat) : Tool :=
  { t with
    name := d.name.apply t.name,
    description := d.description.apply t.description,
    handler_name := d.handler_name.apply t.handler_name,
    parameters_schema := d.parameters_schema.apply t.parameters_schema,
    is_active := d.is_active.apply t.is_active,
    updated_at := if updChanges d t then now else t.updated_at }

/-- `BaseRepository.update`: fetch by id (`None` when absent), assign
every set non-`None` field of the dump, commit. -/
def update (s : Store) (id_ : Nat) (d : ToolUpdate) (now : Nat) : Option (Tool × Store) :=
  match get_by_id s id_ with
  | none => none
  | some t =>
      let t' := applyUpd d t now
      some (t', { s with rows := replaceFirst (fun r => r.id == id_) t' s.rows })

/-- `BaseRepository.delete`: hard removal, `False` when absent. -/
def delete (s : Store) (id_ : Nat) : Bool × Store :=
  match get_by_id s id_ with
  | none => (false, s)
  | some _ => (true, { s with rows := s.rows.filter (fun t => t.id != id_) })

/-- `ToolRepository.soft_delete`: set `is_active := false`, keep the row;
`False` when absent. -/
def soft_delete (s : Store) (id_ : Nat) (now : Nat) : Bool × Store :=
  match get_by_id s id_ with
  | none => (false, s)
  | some t =>
      let t' := { t with is_active := false,
                         updated_at := if t.is_active then now else t.updated_at }
      (true, { s with rows := replaceFirst (fun r => r.id == id_) t' s.rows })

/-- `ToolRepository.activate`: set `is_active := true`; `False` when
absent. -/
def activate (s : Store) (id_ : Nat) (now : Nat) : Bool × Store :=
  match get_by_id s id_ with
  | none => (false, s)
  | some t =>
      let t' := { t with is_active := true,
                         updated_at := if t.is_active then t.updated_at else now }
      (true, { s with rows := replaceFirst (fun r => r.id == id_) t' s.rows })

end Store

/-- The typed exceptions of `src/core/exceptions.py` that the tool
service raises. `toolNotFound` is the `ToolNotFoundError` subclass of
`NotFoundError`. -/
inductive AppError where
  | validation (msg : String)
  | notFound (msg : String)
  | toolNotFound (msg : String)
  | toolHandler (msg : String)
  | toolHandlerNotFound (msg : String)
  deriving Repr, DecidableEq

/-- `str(e)`: the message the exception carries. -/
def AppError.message : AppError → String
  | .validation m => m
  | .notFound m => m
  | .toolNotFound m => m
  | .toolHandler m => m
  | .toolHandlerNotFound m => m

/-- Membership in the `NotFoundError` class hierarchy: `ToolNotFoundError`
is a subclass of `NotFoundError`. -/
def AppError.isNotFoundKind : AppError → Bool
  | .notFound _ => true
  | .toolNotFound _ => true
  | _ => false

namespace ToolService

/-- `ToolService.create_tool`: validate the handler, pre-check the name,
then insert. Errors leave the store untouched. -/
def create_tool (s : Store) (tool_data : ToolCreate) (now : Nat) :
    Except AppError Tool × Store :=
  if (get_handler tool_data.handler_name).isNone then
    (.error (.toolHandlerNotFound
      ("Handler '" ++ tool_data.handler_name ++ "' not found in registry")), s)
  else if (s.get_by_name tool_data.name).isSome then
    (.error (.validation ("Tool with name '" ++ tool_data.name ++ "' already exists")), s)
  else
    let (t, s') := s.create tool_data now
    (.ok t, s')

/-- `ToolService.get_tool`. -/
def get_tool (s : Store) (tool_id : Nat) : Except AppError Tool :=
  match s.get_by_id tool_id with
  | none => .error (.toolNotFound ("Tool with ID " ++ toString tool_id ++ " not found"))
  | some t => .ok t

/-- `ToolService.get_tool_by_name`. -/
def get_tool_by_name (s : Store) (name : String) : Except AppError Tool :=
  match s.get_by_name name with
  | none => .error (.toolNotFound ("Tool with name '" ++ name ++ "' not found"))
  | some t => .ok t

/-- `ToolService.list_tools`. -/
def list_tools (s : Store) (active_only : Bool) : List Tool :=
  if active_only then s.list_active else s.list_all

/-- Python truthiness of the `handler_name` attribute read from the
partial update (`None` and the empty string are falsy). -/
def truthyAttr (o : Option String) : Bool :=
  match o with
  | none => false
  | some h => !h.isEmpty

/-- The guard `if tool_data.handler_name and not get_handler(...)` of
`ToolService.update_tool`. -/
def handlerGuardFails (tool_data : ToolUpdate) : Bool :=
  truthyAttr tool_data.handler_name.toAttr &&
    (get_handler (tool_data.handler_name.toAttr.getD "")).isNone

/-- `ToolService.update_tool`: validate a truthy `handler_name` against
the registry, then apply the set non-`None` fields through the
repository. -/
def update_tool (s : Store) (tool_id : Nat) (tool_data : ToolUpdate) (now : Nat) :
    Except AppError Tool × Store :=
  if handlerGuardFails tool_data then
    (.error (.toolHandlerNotFound
      ("Handler '" ++ tool_data.handler_name.toAttr.getD "" ++ "' not found in registry")), s)
  else
    match s.update tool_id tool_data now with
    | none => (.error (.toolNotFound ("Tool with ID " ++ toString tool_id ++ " not found")), s)
    | some (t, s') => (.ok t, s')

/-- `ToolService.delete_tool`: soft delete deactivates, hard delete
removes; a repository `False` becomes `ToolNotFoundError`. -/
def delete_tool (s : Store) (tool_id : Nat) (soft : Bool) (now : Nat) :
    Except AppError Bool × Store :=
  let (success, s') := if soft then s.soft_delete tool_id now else s.delete tool_id
  if success then (.ok true, s')
  else (.error (.toolNotFound ("Tool with ID " ++ toString tool_id ++ " not found")), s')

/-- `ToolService.execute_tool`: resolve the name, require `is_active`,
resolve the handler, invoke it. The handlers of the embedding are total
Lean functions, so the `ToolHandlerError` wrapper branch of the source is
unreachable here. -/
def execute_tool (s : Store) (tool_name : String) (parameters : PDict) :
    Except AppError PDict :=
  match s.get_by_name tool_name with
  | none => .error (.toolNotFound ("Tool '" ++ tool_name ++ "' not found"))
  | some tool =>
      if !tool.is_active then
        .error (.toolNotFound ("Tool '" ++ tool_name ++ "' is not active"))
      else
        match get_handler tool.handler_name with
        | none => .error (.toolHandlerNotFound
            ("Handler '" ++ tool.handler_name ++ "' not found in registry"))
        | some handler => .ok (handler parameters)

end ToolService

/-- The stub `register_tool` installs for one tool name
(`src/mcp_server/tools.py`): it re-runs `execute_tool` on every call and
flattens any raised error into a `success: false` mapping. -/
def dynamic_tool (s : Store) (name : String) (kwargs : PDict) : PDict :=
  match ToolService.execute_tool s name kwargs with
  | .ok result => result
  | .error e => [("success", .bool false), ("error", .str e.message)]

/-- The seeded `echo` row of `scripts/seed_tools.py`, instantiated at a
given id and creation time. -/
def seededEcho (id_ now : Nat) : Tool :=
  { id := id_, name := "echo",
    description := "Echo back the provided text. Useful for testing and simple text repetition.",
    handler_name := "echo_handler",
    parameters_schema := .obj
      [ ("type", .str "object"),
        ("properties", .obj
          [ ("text", .obj
              [ ("type", .str "string"),
                ("description", .str "The text to echo back") ]) ]),
        ("required", .arr [.str "text"]) ],
    is_active := true, created_at := now, updated_at := now }

/-- The seeded `calculator_add` row of `scripts/seed_tools.py`. -/
def seededCalc (id_ now : Nat) : Tool :=
  { id := id_, name := "calculator_add",
    description := "Add two numbers together. Performs simple addition operation.",
    handler_name := "calculator_add_handler",
    parameters_schema := .obj
      [ ("type", .str "object"),
        ("properties", .obj
          [ ("a", .obj
              [ ("type", .str "number"),
                ("description", .str "First number to add") ]),
            ("b", .obj
              [ ("type", .str "number"),
                ("description", .str "Second number to add") ]) ]),
        ("required", .arr [.str "a", .str "b"]) ],
    is_active := true, created_at := now, updated_at := now }

/-- A store holding the two seeded rows. -/
def seededStore : Store :=
  { rows := [seededEcho 1 0, seededCalc 2 0], nextId := 3 }

/-- A store whose only row is a deactivated `echo` tool. -/
def inactiveEchoStore : Store :=
  { rows := [{ seededEcho 1 0 with is_active := false }], nextId := 2 }
/-- A partial update setting only `description`. -/
def descUpd : ToolUpdate :=
  { name := .unset, description := .val "updated description",
    handler_name := .unset, parameters_schema := .unset, is_active := .unset }

/-- A partial update setting `handler_name` to an unregistered name. -/
def badHandlerUpd : ToolUpdate :=
  { name := .unset, description := .unset, handler_name := .val "nope",
    parameters_schema := .unset, is_active := .unset }

/-- A partial update explicitly setting every field to `None`. -/
def nullUpd : ToolUpdate :=
  { name := .null, description := .null, handler_name := .null,
    parameters_schema := .null, is_active := .null }

/-- C1: `execute_tool` raises the `ToolNotFoundError` kind both for a
name with no row and for a row with `is_active = false`, so the caller
cannot tell a never-created tool from a deactivated one. -/
theorem execute_tool_absent_or_inactive_toolNotFound
    (s : Store) (n : String) (p : PDict)
    (h : s.get_by_name n = none ∨ ∃ t, s.get_by_name n = some t ∧ t.is_active = false) :
    ∃ msg, ToolService.execute_tool s n p = .error (.toolNotFound msg) := by
  rcases h with h | ⟨t, ht, hact⟩
  · exact ⟨"Tool '" ++ n ++ "' not found", by simp [ToolService.execute_tool, h]⟩
  · exact ⟨"Tool '" ++ n ++ "' is not active", by simp [ToolService.execute_tool, ht, hact]⟩

/-- C1 witness: a fresh seeded store rejects the unknown name "ghost",
and a store with a deactivated "echo" rejects "echo", both with the
`ToolNotFoundError` kind. -/
theorem execute_tool_absent_or_inactive_toolNotFound_witness :
    (∃ msg, ToolService.execute_tool seededStore "ghost" [] = .error (.toolNotFound msg)) ∧
    (∃ msg, ToolService.execute_tool inactiveEchoStore "echo" [] = .error (.toolNotFound msg)) :=
  ⟨execute_tool_absent_or_inactive_toolNotFound seededStore "ghost" [] (Or.inl rfl),
   execute_tool_absent_or_inactive_toolNotFound inactiveEchoStore "echo" []
     (Or.inr ⟨{ seededEcho 1 0 with is_active := false }, rfl, rfl⟩)⟩

/-- C2: creating a tool whose name already exists, with a registered
handler, fails with `ValidationError` and leaves the store unchanged. -/
theorem create_tool_duplicate_name_rejected
    (s : Store) (d : ToolCreate) (now : Nat) (t : Tool)
    (hname : s.get_by_name d.name = some t)
    (hhandler : (get_handler d.handler_name).isSome = true) :
    ToolService.create_tool s d now =
      (.error (.validation ("Tool with name '" ++ d.name ++ "' already exists")), s) := by
  have h1 : (get_handler d.handler_name).isNone = false := by
    cases hg : get_handler d.handler_name <;> simp_all
  simp [ToolService.create_tool, h1, hname]

/-- C2 witness: re-creating "echo" against the seeded store fails with
`ValidationError`; the returned store is the input store. -/
theorem create_tool_duplicate_name_rejected_witness :
    ToolService.create_tool seededStore
      { name := "echo", description := "again", handler_name := "echo_handler",
        parameters_schema := .obj [], is_active := true } 5 =
      (.error (.validation "Tool with name 'echo' already exists"), seededStore) :=
  create_tool_duplicate_name_rejected seededStore
    { name := "echo", description := "again", handler_name := "echo_handler",
      parameters_schema := .obj [], is_active := true } 5 (seededEcho 1 0) rfl rfl

/-- C3: creating a tool with an unregistered `handler_name` fails with
`ToolHandlerNotFoundError` and leaves the store unchanged, regardless of
the name — so the handler check precedes the duplicate-name check. -/
theorem create_tool_unregistered_handler_rejected
    (s : Store) (d : ToolCreate) (now : Nat)
    (hhandler : get_handler d.handler_name = none) :
    ToolService.create_tool s d now =
      (.error (.toolHandlerNotFound
        ("Handler '" ++ d.handler_name ++ "' not found in registry")), s) := by
  simp [ToolService.create_tool, hhandler]

/-- C3 witness: a spec with BOTH an unregistered handler and the
duplicate name "echo" fails with the handler error, not the duplicate
error, and adds no row. -/
theorem create_tool_unregistered_handler_rejected_witness :
    ToolService.create_tool seededStore
      { name := "echo", description := "dup", handler_name := "nope",
        parameters_schema := .obj [], is_active := true } 5 =
      (.error (.toolHandlerNotFound "Handler 'nope' not found in registry"), seededStore) :=
  create_tool_unregistered_handler_rejected seededStore
    { name := "echo", description := "dup", handler_name := "nope",
      parameters_schema := .obj [], is_active := true } 5 rfl

/-- C4: the dynamic stub never propagates a fault: any error raised by
`execute_tool` is flattened to `{success: false, error: <message>}`, and
a successful result is returned unchanged. -/
theorem dynamic_tool_flattens_errors (s : Store) (n : String) (k : PDict) :
    (∀ e, ToolService.execute_tool s n k = .error e →
      dynamic_tool s n k = [("success", .bool false), ("error", .str e.message)]) ∧
    (∀ r, ToolService.execute_tool s n k = .ok r → dynamic_tool s n k = r) := by
  refine ⟨fun e he => ?_, fun r hr => ?_⟩
  · simp [dynamic_tool, he]
  · simp [dynamic_tool, hr]

/-- C4 witness: an unknown name yields the flattened error mapping, and a
successful echo invocation is forwarded unchanged. -/
theorem dynamic_tool_flattens_errors_witness :
    dynamic_tool seededStore "ghost" [] =
      [("success", .bool false), ("error", .str "Tool 'ghost' not found")] ∧
    dynamic_tool seededStore "echo" [("text", .str "hi")] =
      [("success", .bool true), ("message", .str "Echo: hi"), ("original_text", .str "hi")] :=
  ⟨(dynamic_tool_flattens_errors seededStore "ghost" []).1 (.toolNotFound "Tool 'ghost' not found") rfl,
   (dynamic_tool_flattens_errors seededStore "echo" [("text", .str "hi")]).2
     [("success", .bool true), ("message", .str "Echo: hi"), ("original_text", .str "hi")] rfl⟩

/-- C7: with an active "echo" row wired to the echo handler,
`execute_tool` on "Hello, World!" returns exactly the documented
mapping; in general the echo handler echoes any string. -/
theorem execute_echo_hello_world (s : Store) :
    (∀ t, s.get_by_name "echo" = some t → t.is_active = true →
      t.handler_name = "echo_handler" →
      ToolService.execute_tool s "echo" [("text", .str "Hello, World!")] =
        .ok [("success", .bool true), ("message", .str "Echo: Hello, World!"),
             ("original_text", .str "Hello, World!")]) ∧
    (∀ text : String, echo_handler [("text", .str text)] =
      [("success", .bool true), ("message", .str ("Echo: " ++ text)),
       ("original_text", .str text)]) := by
  refine ⟨fun t ht hact hhn => ?_, fun text => rfl⟩
  simp [ToolService.execute_tool, ht, hact, hhn]
  rfl

/-- C7 witness: the seeded store executes "echo" on "Hello, World!" to
the documented mapping. -/
theorem execute_echo_hello_world_witness :
    ToolService.execute_tool seededStore "echo" [("text", .str "Hello, World!")] =
      .ok [("success", .bool true), ("message", .str "Echo: Hello, World!"),
           ("original_text", .str "Hello, World!")] :=
  (execute_echo_hello_world seededStore).1 (seededEcho 1 0) rfl rfl rfl

/-- C8: when `a` does not convert to a number, `calculator_add_handler`
returns a `success: false` mapping carrying the conversion failure
message instead of raising, and `execute_tool` on a tool wired to it
therefore succeeds and forwards that mapping unchanged. -/
theorem calculator_add_nonnumeric_a (p : PDict) (e : String)
    (ha : pyFloat (PDict.getD p "a" (.int 0)) = .error e) :
    calculator_add_handler p =
      [("success", .bool false), ("error", .str ("Invalid numbers provided: " ++ e))] ∧
    (∀ (s : Store) (t : Tool) (n : String), s.get_by_name n = some t →
      t.is_active = true → t.handler_name = "calculator_add_handler" →
      ToolService.execute_tool s n p =
        .ok [("success", .bool false), ("error", .str ("Invalid numbers provided: " ++ e))]) := by
  have h1 : calculator_add_handler p =
      [("success", .bool false), ("error", .str ("Invalid numbers provided: " ++ e))] := by
    simp [calculator_add_handler, ha]
  refine ⟨h1, fun s t n hname hact hhn => ?_⟩
  simp [ToolService.execute_tool, hname, hact, hhn]
  rw [show get_handler "calculator_add_handler" = some calculator_add_handler from rfl]
  simp [h1]

/-- C8 witness: a non-numeric string for `a` yields the failure mapping,
both from the handler and through `execute_tool` on the seeded store. -/
theorem calculator_add_nonnumeric_a_witness :
    calculator_add_handler [("a", .str "not a number"), ("b", .int 2)] =
      [("success", .bool false),
       ("error", .str "Invalid numbers provided: could not convert string to float: 'not a number'")] ∧
    ToolService.execute_tool seededStore "calculator_add"
        [("a", .str "not a number"), ("b", .int 2)] =
      .ok [("success", .bool false),
           ("error", .str "Invalid numbers provided: could not convert string to float: 'not a number'")] :=
  ⟨(calculator_add_nonnumeric_a [("a", .str "not a number"), ("b", .int 2)]
      "could not convert string to float: 'not a number'" rfl).1,
   (calculator_add_nonnumeric_a [("a", .str "not a number"), ("b", .int 2)]
      "could not convert string to float: 'not a number'" rfl).2
     seededStore (seededCalc 2 0) "calculator_add" rfl rfl rfl⟩

/-- C9: neither built-in handler fails on missing keys despite the
seeded schemas marking them required: `echo_handler` defaults `text` to
the empty string, and `calculator_add_handler` defaults a missing `a`
or `b` to `0` and still returns a success mapping (when the other
operand converts). -/
theorem handlers_default_missing_params (p : PDict) :
    (PDict.get? p "text" = none →
      echo_handler p =
        [("success", .bool true), ("message", .str "Echo: "), ("original_text", .str "")]) ∧
    (PDict.get? p "a" = none → PDict.get? p "b" = none →
      calculator_add_handler p =
        [("success", .bool true), ("operation", .str "addition"),
         ("a", .int 0), ("b", .int 0), ("result", .rat 0)]) ∧
    (PDict.get? p "a" = none → ∀ qb, pyFloat (PDict.getD p "b" (.int 0)) = .ok qb →
      calculator_add_handler p =
        [("success", .bool true), ("operation", .str "addition"),
         ("a", .int 0), ("b", PDict.getD p "b" (.int 0)), ("result", .rat qb)]) ∧
    (PDict.get? p "b" = none → ∀ qa, pyFloat (PDict.getD p "a" (.int 0)) = .ok qa →
      calculator_add_handler p =
        [("success", .bool true), ("operation", .str "addition"),
         ("a", PDict.getD p "a" (.int 0)), ("b", .int 0), ("result", .rat qa)]) := by
  refine ⟨fun htext => ?_, fun hA hB => ?_, fun hA qb hb => ?_, fun hB qa ha => ?_⟩
  · have h0 : PDict.getD p "text" (.str "") = .str "" := by simp [PDict.getD, htext]
    simp only [echo_handler, h0]
    rfl
  · simp [calculator_add_handler, PDict.getD, hA, hB, pyFloat]
  · have hA0 : PDict.getD p "a" (.int 0) = .int 0 := by simp [PDict.getD, hA]
    simp only [calculator_add_handler, hA0, hb]
    norm_num [pyFloat]
  · have hB0 : PDict.getD p "b" (.int 0) = .int 0 := by simp [PDict.getD, hB]
    simp only [calculator_add_handler, hB0, ha]
    norm_num [pyFloat]

/-- C9 witness: the empty parameter mapping gives `"Echo: "` from the
echo handler and a `0` sum from the calculator handler; a mapping with
only `b` present defaults `a` to `0`. -/
theorem handlers_default_missing_params_witness :
    echo_handler [] =
      [("success", .bool true), ("message", .str "Echo: "), ("original_text", .str "")] ∧
    calculator_add_handler [] =
      [("success", .bool true), ("operation", .str "addition"),
       ("a", .int 0), ("b", .int 0), ("result", .rat 0)] ∧
    calculator_add_handler [("b", .rat (5/2))] =
      [("success", .bool true), ("operation", .str "addition"),
       ("a", .int 0), ("b", .rat (5/2)), ("result", .rat (5/2))] :=
  ⟨(handlers_default_missing_params []).1 rfl,
   (handlers_default_missing_params []).2.1 rfl rfl,
   (handlers_default_missing_params [("b", .rat (5/2))]).2.2.1 rfl (5/2) rfl⟩

/-- After replacing the first row matching `p` by a row that also
matches `p`, `find?` returns the replacement. -/
theorem find_after_replaceFirst (p : Tool → Bool) (t' : Tool) (hp : p t' = true) :
    ∀ (rows : List Tool) (t : Tool), rows.find? p = some t →
      (Store.replaceFirst p t' rows).find? p = some t'
  | [], t, h => by simp at h
  | r :: rs, t, h => by
      cases hr : p r with
      | true => simp [Store.replaceFirst, hr, hp]
      | false =>
          rw [List.find?_cons_of_neg _ (by simp [hr])] at h
          have hstep : Store.replaceFirst p t' (r :: rs) = r :: Store.replaceFirst p t' rs := by
            simp [Store.replaceFirst, hr]
          rw [hstep, List.find?_cons_of_neg _ (by simp [hr])]
          exact find_after_replaceFirst p t' hp rs t h

/-- C6: `soft_delete` deactivates but retains the row — `get_by_id`
still returns it with every field except `is_active` and `updated_at`
unchanged — `activate` restores `is_active := true`, and both return
`false` on an absent id, leaving the store unchanged. -/
theorem soft_delete_and_activate_spec (s : Store) (id_ now : Nat) :
    (∀ t, s.get_by_id id_ = some t →
      (s.soft_delete id_ now).1 = true ∧
      ∃ t', (s.soft_delete id_ now).2.get_by_id id_ = some t' ∧
        t'.is_active = false ∧ t'.id = t.id ∧ t'.name = t.name ∧
        t'.description = t.description ∧ t'.handler_name = t.handler_name ∧
        t'.parameters_schema = t.parameters_schema ∧ t'.created_at = t.created_at) ∧
    (∀ t, s.get_by_id id_ = some t →
      (s.activate id_ now).1 = true ∧
      ∃ t', (s.activate id_ now).2.get_by_id id_ = some t' ∧
        t'.is_active = true ∧ t'.id = t.id ∧ t'.name = t.name ∧
        t'.description = t.description ∧ t'.handler_name = t.handler_name ∧
        t'.parameters_schema = t.parameters_schema ∧ t'.created_at = t.created_at) ∧
    (s.get_by_id id_ = none →
      s.soft_delete id_ now = (false, s) ∧ s.activate id_ now = (false, s)) := by
  refine ⟨fun t ht => ?_, fun t ht => ?_, fun hnone => ?_⟩
  · have ht' : s.rows.find? (fun r => r.id == id_) = some t := ht
    have hid0 := List.find?_some ht'
    have hid : (t.id == id_) = true := hid0
    refine ⟨by simp [Store.soft_delete, ht], ?_⟩
    refine ⟨{ t with is_active := false, updated_at := if t.is_active then now else t.updated_at }, ?_, by simp⟩
    simp only [Store.soft_delete, Store.get_by_id, ht']
    refine find_after_replaceFirst _ _ ?_ s.rows t ht'
    simp [hid]
  · have ht' : s.rows.find? (fun r => r.id == id_) = some t := ht
    have hid0 := List.find?_some ht'
    have hid : (t.id == id_) = true := hid0
    refine ⟨by simp [Store.activate, ht], ?_⟩
    refine ⟨{ t with is_active := true, updated_at := if t.is_active then t.updated_at else now }, ?_, by simp⟩
    simp only [Store.activate, Store.get_by_id, ht']
    refine find_after_replaceFirst _ _ ?_ s.rows t ht'
    simp [hid]
  · exact ⟨by simp [Store.soft_delete, hnone], by simp [Store.activate, hnone]⟩

/-- C6 witness: soft-deleting the seeded "echo" row keeps it readable
with `is_active := false` and unchanged identity fields; activating
restores it; an absent id returns `false` for both with the store
unchanged. -/
theorem soft_delete_and_activate_spec_witness :
    ((seededStore.soft_delete 1 7).1 = true ∧
      ∃ t', (seededStore.soft_delete 1 7).2.get_by_id 1 = some t' ∧
        t'.is_active = false ∧ t'.id = 1 ∧ t'.name = "echo" ∧
        t'.description = (seededEcho 1 0).description ∧ t'.handler_name = "echo_handler" ∧
        t'.parameters_schema = (seededEcho 1 0).parameters_schema ∧ t'.created_at = 0) ∧
    (seededStore.get_by_id 99 = none →
      seededStore.soft_delete 99 7 = (false, seededStore) ∧
      seededStore.activate 99 7 = (false, seededStore)) :=
  ⟨(soft_delete_and_activate_spec seededStore 1 7).1 (seededEcho 1 0) rfl,
   (soft_delete_and_activate_spec seededStore 99 7).2.2⟩


/-- C5: `update_tool` rejects a set unregistered `handler_name` with
`ToolHandlerNotFoundError` (store untouched; the non-empty hypothesis
mirrors the pydantic `min_length=1` bound), rejects an absent id with
`ToolNotFoundError` (store untouched), and otherwise applies exactly the
provided fields, leaving every absent field at its prior value. -/
theorem update_tool_partial_update (s : Store) (tool_id now : Nat) (u : ToolUpdate) :
    (∀ h, u.handler_name = .val h → h ≠ "" → get_handler h = none →
      ToolService.update_tool s tool_id u now =
        (.error (.toolHandlerNotFound ("Handler '" ++ h ++ "' not found in registry")), s)) ∧
    (ToolService.handlerGuardFails u = false → s.get_by_id tool_id = none →
      ToolService.update_tool s tool_id u now =
        (.error (.toolNotFound ("Tool with ID " ++ toString tool_id ++ " not found")), s)) ∧
    (∀ t, ToolService.handlerGuardFails u = false → s.get_by_id tool_id = some t →
      ∃ t' s', ToolService.update_tool s tool_id u now = (.ok t', s') ∧
        s'.get_by_id tool_id = some t' ∧
        t'.name = u.name.apply t.name ∧
        t'.description = u.description.apply t.description ∧
        t'.handler_name = u.handler_name.apply t.handler_name ∧
        t'.parameters_schema = u.parameters_schema.apply t.parameters_schema ∧
        t'.is_active = u.is_active.apply t.is_active ∧
        t'.id = t.id ∧ t'.created_at = t.created_at) := by
  refine ⟨fun h hv hne hget => ?_, fun hguard hnone => ?_, fun t hguard ht => ?_⟩
  · have hie : h.isEmpty = false := by
      rw [Bool.eq_false_iff]
      intro hc
      exact hne ((String.isEmpty_iff h).mp hc)
    have hguard : ToolService.handlerGuardFails u = true := by
      simp [ToolService.handlerGuardFails, ToolService.truthyAttr, UVal.toAttr, hv, hget, hie]
    simp [ToolService.update_tool, hguard, UVal.toAttr, hv]
  · simp [ToolService.update_tool, hguard, Store.update, hnone]
  · have ht' : s.rows.find? (fun r => r.id == tool_id) = some t := ht
    have hid0 := List.find?_some ht'
    have hid : (t.id == tool_id) = true := hid0
    refine ⟨Store.applyUpd u t now,
      { s with rows := Store.replaceFirst (fun r => r.id == tool_id) (Store.applyUpd u t now) s.rows },
      ?_, ?_, rfl, rfl, rfl, rfl, rfl, rfl, rfl⟩
    · simp [ToolService.update_tool, hguard, Store.update, ht]
    · show List.find? (fun r => r.id == tool_id)
        (Store.replaceFirst (fun r => r.id == tool_id) (Store.applyUpd u t now) s.rows) =
        some (Store.applyUpd u t now)
      refine find_after_replaceFirst _ _ ?_ s.rows t ht'
      simp [Store.applyUpd, hid]

/-- C5 witness: an unregistered handler update fails with the handler
error; an absent id fails with the not-found error; a description-only
update on the seeded "calculator_add" row changes only the description. -/
theorem update_tool_partial_update_witness :
    ToolService.update_tool seededStore 1 badHandlerUpd 9 =
      (.error (.toolHandlerNotFound "Handler 'nope' not found in registry"), seededStore) ∧
    ToolService.update_tool seededStore 42 descUpd 9 =
      (.error (.toolNotFound "Tool with ID 42 not found"), seededStore) ∧
    (∃ t' s', ToolService.update_tool seededStore 2 descUpd 9 = (.ok t', s') ∧
      s'.get_by_id 2 = some t' ∧
      t'.name = "calculator_add" ∧
      t'.description = "updated description" ∧
      t'.handler_name = "calculator_add_handler" ∧
      t'.parameters_schema = (seededCalc 2 0).parameters_schema ∧
      t'.is_active = true ∧ t'.id = 2 ∧ t'.created_at = 0) :=
  ⟨(update_tool_partial_update seededStore 1 9 badHandlerUpd).1 "nope" rfl (by decide) rfl,
   (update_tool_partial_update seededStore 42 9 descUpd).2.1 rfl rfl,
   (update_tool_partial_update seededStore 2 9 descUpd).2.2 (seededCalc 2 0) rfl rfl⟩

/-- C10: a field explicitly provided as `None` in the update dump is
skipped by the repository assignment loop, so the record keeps its prior
value for every `None`-valued field and the update still succeeds. -/
theorem update_tool_skips_null_fields (s : Store) (tool_id now : Nat) (u : ToolUpdate) (t : Tool)
    (hguard : ToolService.handlerGuardFails u = false)
    (ht : s.get_by_id tool_id = some t) :
    ∃ t' s', ToolService.update_tool s tool_id u now = (.ok t', s') ∧
      (u.name = .null → t'.name = t.name) ∧
      (u.description = .null → t'.description = t.description) ∧
      (u.handler_name = .null → t'.handler_name = t.handler_name) ∧
      (u.parameters_schema = .null → t'.parameters_schema = t.parameters_schema) ∧
      (u.is_active = .null → t'.is_active = t.is_active) := by
  refine ⟨Store.applyUpd u t now,
    { s with rows := Store.replaceFirst (fun r => r.id == tool_id) (Store.applyUpd u t now) s.rows },
    ?_, fun h => ?_, fun h => ?_, fun h => ?_, fun h => ?_, fun h => ?_⟩
  · simp [ToolService.update_tool, hguard, Store.update, ht]
  · simp [Store.applyUpd, h, UVal.apply]
  · simp [Store.applyUpd, h, UVal.apply]
  · simp [Store.applyUpd, h, UVal.apply]
  · simp [Store.applyUpd, h, UVal.apply]
  · simp [Store.applyUpd, h, UVal.apply]

/-- C10 witness: an update with every field explicitly `None` succeeds
on the seeded "echo" row and leaves all its fields at their prior
values. -/
theorem update_tool_skips_null_fields_witness :
    ∃ t' s', ToolService.update_tool seededStore 1 nullUpd 9 = (.ok t', s') ∧
      (nullUpd.name = .null → t'.name = "echo") ∧
      (nullUpd.description = .null → t'.description = (seededEcho 1 0).description) ∧
      (nullUpd.handler_name = .null → t'.handler_name = "echo_handler") ∧
      (nullUpd.parameters_schema = .null →
        t'.parameters_schema = (seededEcho 1 0).parameters_schema) ∧
      (nullUpd.is_active = .null → t'.is_active = true) :=
  update_tool_skips_null_fields seededStore 1 9 nullUpd (seededEcho 1 0) rfl rfl
